import Mathlib

set_option linter.unusedVariables false

/- Shallow embedding of src/downloader.py: the Transfer Unit (download_file),
   the Worker Pool Dispatcher (download_files_parallel) and the Batch Retry
   Controller (the retry loop in main). Machine effects -- the HTTP requests
   issued, the state of the local file at the generated output path, the bytes
   written -- are made explicit as data, so that every branch of the source is
   visible in the result. -/

/-- State of one local file path: existence, size in bytes, and modified time
(seconds, as produced by time.mktime). -/
structure LocalFile where
  present : Bool
  size : Nat
  mtime : Int
deriving DecidableEq

/-- Behaviour of the remote server for one URL during one download_file call:
the HEAD response (Last-Modified as a parsed timestamp, Content-Length when the
header is present), the GET response (status code, body length, Last-Modified),
and whether each request raises a network exception. -/
structure Remote where
  headExc : Bool
  headLastModified : Option Int
  headContentLength : Option Nat
  getExc : Bool
  getStatus : Nat
  getBodyLen : Nat
  getLastModified : Option Int
deriving DecidableEq

/-- One HTTP request as issued by the code: method plus the two headers the
source ever sets (User-Agent and Range). -/
structure HttpRequest where
  method : String
  userAgent : Option String
  rangeHeader : Option String
deriving DecidableEq

/-- The Transfer Outcome tuple returned by download_file:
(success, file path, error message). -/
structure Outcome where
  success : Bool
  path : String
  errMsg : String
deriving DecidableEq

/-- Input of one download_file call: the raw url string, the fields of
urllib.parse.urlparse relevant to the code (scheme, netloc, and the stem and
suffix of the path component), the configured downloads folder and whether it
is a directory, the timestamp string and random number drawn inside
generate_unique_filename, the mtime the filesystem assigns on write, the local
filesystem (file state per path), and the remote server behaviour. -/
structure DFInput where
  url : String
  scheme : String
  netloc : String
  stem : String
  suffix : String
  downloadsFolder : String
  downloadsIsDir : Bool
  timestampStr : String
  randomNum : Nat
  writeMtime : Int
  fs : String → LocalFile
  remote : Remote

/-- Result of one download_file call: the Python return value or the uncaught
exception, the HTTP requests issued in order, the state of the output path
after the call, and the number of body bytes written to disk. -/
structure DFResult where
  result : Except String Outcome
  requests : List HttpRequest
  finalFile : LocalFile
  bytesWritten : Nat

/-- Python slicing s[:k], which counts from the end when k is negative. -/
def pySliceTo (s : String) (k : Int) : String :=
  if 0 ≤ k then s.take k.toNat else s.take ((s.length : Int) + k).toNat

/-- generate_unique_filename from the source: appends an underscore, the
timestamp, an underscore, the random number and the extension, truncating the
base name when the total would exceed the length budget. -/
def generate_unique_filename (filename extension timestamp : String)
    (random_number : Nat) : String :=
  let max_len : Int := 255 - (extension.length : Int) - 1
  let cut : Int :=
    max_len - (timestamp.length : Int) - ((toString random_number).length : Int) - 2
  let filename :=
    if (filename.length : Int) > cut then pySliceTo filename cut else filename
  filename ++ "_" ++ timestamp ++ "_" ++ toString random_number ++ extension

/-- str.startswith over the character lists (computable by the kernel). -/
def strStartsWith (s p : String) : Bool :=
  p.data.isPrefixOf s.data

/-- Subfolder classification by stem prefix, from download_file. -/
def subfolderOf (stem : String) : String :=
  if strStartsWith stem "DM_" then "DM"
  else if strStartsWith stem "DO_" then "DO"
  else if strStartsWith stem "DA_" then "DA"
  else ""

/-- The destination path download_file computes for its input: downloads
folder, optional subfolder, and the generated unique filename. -/
def outputPath (inp : DFInput) : String :=
  let sub := subfolderOf inp.stem
  let fname :=
    generate_unique_filename inp.stem inp.suffix inp.timestampStr inp.randomNum
  if sub = "" then inp.downloadsFolder ++ "/" ++ fname
  else inp.downloadsFolder ++ "/" ++ sub ++ "/" ++ fname

/-- The fixed browser-like User-Agent string from the source. -/
def userAgent : String :=
  "Mozilla/5.0 (Windows NT 10.0; Win64; x64) AppleWebKit/537.36 (KHTML, like Gecko) Chrome/125.0.0.0 Safari/537.36"

/-- The HEAD request issued by the timestamp check (source line 112); it is
sent with no headers at all. -/
def tsProbeRequest : HttpRequest :=
  { method := "HEAD", userAgent := none, rangeHeader := none }

/-- The HEAD request issued by the size probe (source line 128): User-Agent
only. -/
def sizeProbeRequest : HttpRequest :=
  { method := "HEAD", userAgent := some userAgent, rangeHeader := none }

/-- The GET data request issued at source line 139: User-Agent plus a Range
header starting at the current local size. -/
def dataRequest (local_size : Nat) : HttpRequest :=
  { method := "GET", userAgent := some userAgent,
    rangeHeader := some ("bytes=" ++ toString local_size ++ "-") }

/-- Source lines 155 to 175: the post-transfer size verification, then the
timestamp reconciliation from the Last-Modified header of the GET response. -/
def download_file_verify (inp : DFInput) (out : String) (reqs : List HttpRequest)
    (newf : LocalFile) (written remote_size : Nat) : DFResult :=
  if newf.size ≠ remote_size then
    { result := Except.ok
        { success := false, path := out,
          errMsg := "Downloaded file size does not match expected size for " ++ inp.url },
      requests := reqs, finalFile := newf, bytesWritten := written }
  else
    match inp.remote.getLastModified with
    | some ts =>
      { result := Except.ok { success := true, path := out, errMsg := "" },
        requests := reqs, finalFile := { newf with mtime := ts },
        bytesWritten := written }
    | none =>
      { result := Except.ok { success := true, path := out, errMsg := "" },
        requests := reqs, finalFile := newf, bytesWritten := written }

/-- Source line 123: the local size is the file size when the file exists,
otherwise 0. -/
def localSize (f : LocalFile) : Nat :=
  if f.present then f.size else 0

/-- Source lines 122 to 175: local size, size probe (with User-Agent), the
local_size versus remote_size short-circuit, the Range GET, the write in append
or truncate mode, and verification. reqs holds the requests already issued. -/
def download_file_rest (inp : DFInput) (out : String) (f : LocalFile)
    (reqs : List HttpRequest) : DFResult :=
  let local_size := localSize f
  let reqs := reqs ++ [sizeProbeRequest]
  if inp.remote.headExc then
    { result := Except.error "requests network exception",
      requests := reqs, finalFile := f, bytesWritten := 0 }
  else
    let remote_size := inp.remote.headContentLength.getD 0
    if local_size ≥ remote_size then
      { result := Except.ok { success := true, path := out, errMsg := "" },
        requests := reqs, finalFile := f, bytesWritten := 0 }
    else
      let reqs := reqs ++ [dataRequest local_size]
      if inp.remote.getExc then
        { result := Except.error "requests network exception",
          requests := reqs, finalFile := f, bytesWritten := 0 }
      else if inp.remote.getStatus = 206 then
        download_file_verify inp out reqs
          { present := true, size := local_size + inp.remote.getBodyLen,
            mtime := inp.writeMtime }
          inp.remote.getBodyLen remote_size
      else if inp.remote.getStatus = 200 then
        download_file_verify inp out reqs
          { present := true, size := inp.remote.getBodyLen,
            mtime := inp.writeMtime }
          inp.remote.getBodyLen remote_size
      else
        { result := Except.ok
            { success := false, path := out,
              errMsg := "Download failed with status code " ++
                toString inp.remote.getStatus },
          requests := reqs, finalFile := f, bytesWritten := 0 }

/-- download_file from the source: URL validation, downloads-folder check
(which raises, not returns, on failure), destination naming, the
existing-file timestamp short-circuit (whose HEAD carries no headers), and
then the rest of the transfer. -/
def download_file (inp : DFInput) : DFResult :=
  if inp.scheme = "" ∨ inp.netloc = "" then
    { result := Except.ok
        { success := false, path := "", errMsg := "Invalid URL: " ++ inp.url },
      requests := [], finalFile := inp.fs (outputPath inp), bytesWritten := 0 }
  else if inp.downloadsIsDir = false then
    { result := Except.error ("Invalid downloads folder: " ++ inp.downloadsFolder),
      requests := [], finalFile := inp.fs (outputPath inp), bytesWritten := 0 }
  else
    let out := outputPath inp
    let f := inp.fs out
    if f.present then
      if inp.remote.headExc then
        { result := Except.error "requests network exception",
          requests := [tsProbeRequest], finalFile := f, bytesWritten := 0 }
      else
        match inp.remote.headLastModified with
        | some ts =>
          if ts = f.mtime then
            { result := Except.ok { success := true, path := out, errMsg := "" },
              requests := [tsProbeRequest], finalFile := f, bytesWritten := 0 }
          else download_file_rest inp out f [tsProbeRequest]
        | none => download_file_rest inp out f [tsProbeRequest]
    else download_file_rest inp out f []

/-- The condition of the existing-file timestamp short-circuit: the file is
present and the Last-Modified timestamp of the probe equals its mtime. -/
def tsSkip (f : LocalFile) (r : Remote) : Bool :=
  f.present && (match r.headLastModified with
    | some t => t == f.mtime
    | none => false)

/-- The filesystem after a download_file call: the output path takes the final
file state, every other path is untouched. -/
def fsAfter (inp : DFInput) : String → LocalFile :=
  fun p => if p = outputPath inp then (download_file inp).finalFile else inp.fs p

/- Worker Pool Dispatcher (download_files_parallel, source lines 178 to 204).
   Per-URL work is abstracted as outcomeOf; the nondeterministic order in which
   as_completed yields the futures is a parameter: a list of indices into the
   submitted urls. The result list is built in completion order, which is the
   source of the mispairing analysed below. -/

/-- Results as collected at source lines 202 and 203: one entry per element of
the completion order, each the outcome of the url at that submission index. -/
def asCompletedResults (outcomeOf : String → Outcome) (order : List Nat)
    (urls : List String) : List Outcome :=
  order.map (fun i => outcomeOf (urls.getD i ""))

/-- The worker-count clamp at source lines 194 to 198. -/
def clampWorkers (numUrls : Nat) (max_workers : Int) : Int :=
  if max_workers > numUrls then (numUrls : Int) else max_workers

/-- download_files_parallel: rejects a non-positive max_workers, clamps it to
the number of urls, then constructs the pool (which itself raises when its
max_workers is not positive) and collects results in completion order. The
ok value carries the worker count the pool was created with. -/
def download_files_parallel (outcomeOf : String → Outcome) (order : List Nat)
    (urls : List String) (max_workers : Int) :
    Except String (Int × List Outcome) :=
  if max_workers ≤ 0 then
    Except.error "max_workers must be a positive integer."
  else
    let mw := clampWorkers urls.length max_workers
    if mw ≤ 0 then Except.error "max_workers must be greater than 0"
    else Except.ok (mw, asCompletedResults outcomeOf order urls)

/- Batch Retry Controller: the loop at source lines 250 to 270. -/

/-- The failed-url filtering at source lines 252 and 253: zip the submitted
urls with the collected results and keep the urls paired with a failure. -/
def failedUrls (urls : List String) (results : List Outcome) : List String :=
  ((urls.zip results).filter (fun p => !p.2.success)).map Prod.fst

/-- Observable summary of one run of the retry loop: dispatcher invocations,
sleep calls and total seconds slept, whether an exception escaped the loop,
whether the process exit status is non-zero, whether the loop ended in the
all-downloads-succeeded break, and the urls variable at termination (the last
failed set, whose length the final error message reports). -/
structure RunResult where
  dispatches : Nat
  sleeps : Nat
  totalSleep : Nat
  crashed : Bool
  exitNonZero : Bool
  succeeded : Bool
  finalUrls : List String
deriving DecidableEq

/-- One execution of the retry loop body and its continuation. fuel is the
number of loop iterations left (initially retryCount plus one); when it runs
out the for-else branch calls sys.exit(1). dispatch takes the attempt index so
a different completion order can occur each round. -/
def controllerGo (dispatch : Nat → List String → Except String (List Outcome))
    (retryCount retryDelay : Nat) : Nat → Nat → List String → RunResult
  | _attempt, 0, urls =>
    { dispatches := 0, sleeps := 0, totalSleep := 0, crashed := false,
      exitNonZero := true, succeeded := false, finalUrls := urls }
  | attempt, fuel + 1, urls =>
    match dispatch attempt urls with
    | Except.error _ =>
      { dispatches := 1, sleeps := 0, totalSleep := 0, crashed := true,
        exitNonZero := true, succeeded := false, finalUrls := urls }
    | Except.ok results =>
      let failed := failedUrls urls results
      if failed.isEmpty then
        { dispatches := 1, sleeps := 0, totalSleep := 0, crashed := false,
          exitNonZero := false, succeeded := true, finalUrls := [] }
      else
        let rest := controllerGo dispatch retryCount retryDelay
          (attempt + 1) fuel failed
        { dispatches := rest.dispatches + 1,
          sleeps := rest.sleeps + (if attempt < retryCount then 1 else 0),
          totalSleep :=
            rest.totalSleep + (if attempt < retryCount then retryDelay else 0),
          crashed := rest.crashed, exitNonZero := rest.exitNonZero,
          succeeded := rest.succeeded, finalUrls := rest.finalUrls }

/-- The whole retry loop of main: attempts 0 through retryCount. -/
def controllerRun (dispatch : Nat → List String → Except String (List Outcome))
    (retryCount retryDelay : Nat) (urls : List String) : RunResult :=
  controllerGo dispatch retryCount retryDelay 0 (retryCount + 1) urls

/-- The dispatcher as main uses it, with per-URL outcomes fixed across rounds
and results collected in submission order (the completion order that makes the
zip pairing correct). -/
def idDispatch (outcomeOf : String → Outcome) (max_workers : Int) :
    Nat → List String → Except String (List Outcome) :=
  fun _ urls =>
    (download_files_parallel outcomeOf (List.range urls.length) urls
      max_workers).map Prod.snd

/- Concrete scenarios used to settle the claims. -/

/-- A filesystem with no files. -/
def emptyFs : String → LocalFile :=
  fun _ => { present := false, size := 0, mtime := 0 }

/-- A well-behaved remote: no Last-Modified, 5 bytes, full-content answers. -/
def plainRemote : Remote :=
  { headExc := false, headLastModified := none, headContentLength := some 5,
    getExc := false, getStatus := 200, getBodyLen := 5, getLastModified := none }

/-- A valid URL and folder with nothing downloaded yet. -/
def baseInput : DFInput :=
  { url := "https://h/DM_a.jpg", scheme := "https", netloc := "h",
    stem := "DM_a", suffix := ".jpg", downloadsFolder := "dl",
    downloadsIsDir := true, timestampStr := "20240101000000", randomNum := 7,
    writeMtime := 50, fs := emptyFs, remote := plainRemote }

/-- Valid URL but a downloads folder that is not a directory. -/
def invalidFolderInput : DFInput :=
  { baseInput with downloadsIsDir := false }

/-- Destination already on disk with 10 bytes while the remote reports 5, and
no Last-Modified header, so the size short-circuit fires. -/
def oversizedInput : DFInput :=
  { baseInput with
    fs := fun _ => { present := true, size := 10, mtime := 0 },
    remote := { plainRemote with headContentLength := some 5 } }

/-- Fresh transfer of 4 bytes over status 200 into an empty folder. -/
def freshTransferInput : DFInput :=
  { baseInput with
    remote := { plainRemote with headContentLength := some 4, getBodyLen := 4 } }

/-- Destination present with a stale mtime, so the timestamp probe is issued
and the run continues past it (remote Last-Modified differs). -/
def tsProbeInput : DFInput :=
  { baseInput with
    fs := fun _ => { present := true, size := 1, mtime := 3 },
    remote := { plainRemote with
                headLastModified := some 5, headContentLength := some 1 } }

/-- Resume scenario: local 3 bytes, remote 10 bytes, server honours the range
with status 206 and a 7-byte body. -/
def resumeInput : DFInput :=
  { baseInput with
    fs := fun _ => { present := true, size := 3, mtime := 0 },
    remote := { headExc := false, headLastModified := some 100,
                headContentLength := some 10, getExc := false,
                getStatus := 206, getBodyLen := 7, getLastModified := some 100 } }

/-- Same resume scenario but the local mtime happens to equal the remote
Last-Modified, so the timestamp short-circuit fires despite 3 < 10. -/
def tsSkipResumeInput : DFInput :=
  { resumeInput with
    fs := fun _ => { present := true, size := 3, mtime := 100 } }

/-- Probe response that carries no Content-Length at all; nothing on disk. -/
def noContentLengthInput : DFInput :=
  { baseInput with
    remote := { plainRemote with headContentLength := none } }

/-- First run of the idempotence scenario: empty folder, remote of 5 bytes
with a Last-Modified of 100, range honoured with 206. -/
def c4run1 : DFInput :=
  { baseInput with
    downloadsFolder := "d",
    remote := { headExc := false, headLastModified := some 100,
                headContentLength := some 5, getExc := false,
                getStatus := 206, getBodyLen := 5, getLastModified := some 100 } }

/-- Second run over the same folder and unchanged remote: only the wall clock
and the drawn random number differ, as they do on any re-run. -/
def c4run2 : DFInput :=
  { c4run1 with
    timestampStr := "20240101000100", randomNum := 9, fs := fsAfter c4run1 }

/-- Fixed per-URL outcomes: url a always fails (status 404), every other url
always succeeds. -/
def exOutcome : String → Outcome :=
  fun u =>
    if u = "a" then
      { success := false, path := "",
        errMsg := "Download failed with status code 404" }
    else { success := true, path := u, errMsg := "" }

/-- Completion orders for the controller counterexample: in the first round
the second url finishes first, afterwards completion is in submission order. -/
def c5orders : Nat → List Nat :=
  fun r => if r = 0 then [1, 0] else [0]

/-- The dispatcher of the controller counterexample: fixed outcomes, the
completion orders above, max_workers 2. -/
def c5dispatch : Nat → List String → Except String (List Outcome) :=
  fun r urls =>
    (download_files_parallel exOutcome (c5orders r) urls 2).map Prod.snd

/-- Shape check of a Transfer Outcome result: a success carries an empty
error message, a failure a non-empty one; an exception has no outcome. -/
def outcomeShapeOk : Except String Outcome → Bool
  | Except.ok o => (o.success && o.errMsg == "") || (!o.success && o.errMsg != "")
  | Except.error _ => true

/-- Environment conditions under which download_file raises instead of
returning: invalid downloads folder or a network exception. -/
def envException (inp : DFInput) : Bool :=
  !inp.downloadsIsDir || inp.remote.headExc || inp.remote.getExc

/- Helper lemmas. -/

theorem string_eq_empty_of_length_eq_zero (s : String) (h : s.length = 0) :
    s = "" := by
  cases s with
  | mk d =>
    cases d with
    | nil => rfl
    | cons a t => simp [String.length] at h

theorem append_ne_empty_left (s t : String) (h : s ≠ "") : s ++ t ≠ "" := by
  intro he
  apply h
  have hl : (s ++ t).length = 0 := by rw [he]; rfl
  rw [String.length_append] at hl
  exact string_eq_empty_of_length_eq_zero s (by omega)

/-- The size probe answered without a Content-Length header: the remote size
defaults to 0, the local size is at least 0, so the rest of download_file is
the immediate success with no data request and no write. -/
theorem rest_no_content_length (inp : DFInput) (out : String) (f : LocalFile)
    (reqs : List HttpRequest)
    (h3 : inp.remote.headExc = false) (h4 : inp.remote.headContentLength = none) :
    download_file_rest inp out f reqs =
      { result := Except.ok { success := true, path := out, errMsg := "" },
        requests := reqs ++ [sizeProbeRequest], finalFile := f,
        bytesWritten := 0 } := by
  unfold download_file_rest
  simp [h3, h4]

/-- C8: for a non-empty URL list and a concurrency limit above the URL count,
the Dispatcher clamps the worker count to the URL count before creating the
pool; a non-positive limit is rejected with a configuration error before any
download starts. -/
theorem clamp_and_reject_nonpositive (f : String → Outcome) (order : List Nat)
    (urls : List String) (mw : Int) :
    (urls ≠ [] → mw > (urls.length : Int) →
      download_files_parallel f order urls mw =
        Except.ok ((urls.length : Int), asCompletedResults f order urls)) ∧
    (mw ≤ 0 →
      download_files_parallel f order urls mw =
        Except.error "max_workers must be a positive integer.") := by
  constructor
  · intro hne hgt
    have hpos : (0 : Int) < (urls.length : Int) := by
      exact_mod_cast List.length_pos.mpr hne
    have h0 : ¬ mw ≤ 0 := by omega
    have hlen : ¬ ((urls.length : Int) ≤ 0) := by omega
    unfold download_files_parallel clampWorkers
    rw [if_neg h0, if_pos hgt, if_neg hlen]
  · intro h0
    unfold download_files_parallel
    rw [if_pos h0]

theorem clamp_and_reject_nonpositive_witness :
    download_files_parallel exOutcome [0, 1, 2] ["x", "y", "z"] 100 =
      Except.ok (((["x", "y", "z"] : List String).length : Int),
        asCompletedResults exOutcome [0, 1, 2] ["x", "y", "z"]) ∧
    download_files_parallel exOutcome [0] ["x"] 0 =
      Except.error "max_workers must be a positive integer." :=
  ⟨(clamp_and_reject_nonpositive exOutcome [0, 1, 2] ["x", "y", "z"] 100).1
      (by decide) (by decide),
   (clamp_and_reject_nonpositive exOutcome [0] ["x"] 0).2 (by decide)⟩

/-- C10: for the empty URL list and a positive max_workers, the clamp lowers
max_workers to 0 and the pool constructor raises, so the empty batch is an
error, not an empty success list. -/
theorem empty_batch_pool_error (f : String → Outcome) (order : List Nat)
    (mw : Int) (h : 0 < mw) :
    download_files_parallel f order [] mw =
      Except.error "max_workers must be greater than 0" := by
  have h0 : ¬ mw ≤ 0 := by omega
  unfold download_files_parallel clampWorkers
  rw [if_neg h0]
  have hgt : mw > ((([] : List String).length : Nat) : Int) := by
    simpa using h
  rw [if_pos hgt]
  rfl

theorem empty_batch_pool_error_witness :
    download_files_parallel exOutcome [] [] 5 =
      Except.error "max_workers must be greater than 0" :=
  empty_batch_pool_error exOutcome [] 5 (by decide)

/-- C9: when the metadata probe carries no Content-Length, download_file
treats the remote size as 0 and returns success at once: no GET request, no
bytes written, the file state untouched (even when no file exists). -/
theorem no_content_length_short_circuit (inp : DFInput)
    (h1 : ¬ (inp.scheme = "" ∨ inp.netloc = ""))
    (h2 : inp.downloadsIsDir = true)
    (h3 : inp.remote.headExc = false)
    (h4 : inp.remote.headContentLength = none) :
    (download_file inp).result =
      Except.ok { success := true, path := outputPath inp, errMsg := "" } ∧
    (download_file inp).bytesWritten = 0 ∧
    (∀ r ∈ (download_file inp).requests, r.method = "HEAD") ∧
    (download_file inp).finalFile = inp.fs (outputPath inp) := by
  have hdir : ¬ (inp.downloadsIsDir = false) := by simp [h2]
  unfold download_file
  rw [if_neg h1, if_neg hdir]
  cases hp : (inp.fs (outputPath inp)).present with
  | false =>
    simp only [hp, Bool.false_eq_true, if_false]
    rw [rest_no_content_length inp _ _ _ h3 h4]
    refine ⟨rfl, rfl, ?_, rfl⟩
    intro r hr
    simp [sizeProbeRequest] at hr
    rw [hr]
  | true =>
    simp only [hp, if_true]
    rw [h3]
    simp only [Bool.false_eq_true, if_false]
    cases hlm : inp.remote.headLastModified with
    | none =>
      rw [rest_no_content_length inp _ _ _ h3 h4]
      refine ⟨rfl, rfl, ?_, rfl⟩
      intro r hr
      simp [sizeProbeRequest, tsProbeRequest] at hr
      rcases hr with hr | hr <;> rw [hr]
    | some ts =>
      dsimp only
      by_cases hts : ts = (inp.fs (outputPath inp)).mtime
      · rw [if_pos hts]
        refine ⟨rfl, rfl, ?_, rfl⟩
        intro r hr
        simp [tsProbeRequest] at hr
        rw [hr]
      · rw [if_neg hts]
        rw [rest_no_content_length inp _ _ _ h3 h4]
        refine ⟨rfl, rfl, ?_, rfl⟩
        intro r hr
        simp [sizeProbeRequest, tsProbeRequest] at hr
        rcases hr with hr | hr <;> rw [hr]

theorem no_content_length_short_circuit_witness :
    (download_file noContentLengthInput).result =
      Except.ok { success := true, path := outputPath noContentLengthInput,
                  errMsg := "" } ∧
    (download_file noContentLengthInput).bytesWritten = 0 ∧
    (∀ r ∈ (download_file noContentLengthInput).requests, r.method = "HEAD") ∧
    (download_file noContentLengthInput).finalFile =
      noContentLengthInput.fs (outputPath noContentLengthInput) ∧
    (download_file noContentLengthInput).finalFile.present = false :=
  ⟨(no_content_length_short_circuit noContentLengthInput (by decide) rfl rfl
      rfl).1,
   (no_content_length_short_circuit noContentLengthInput (by decide) rfl rfl
      rfl).2.1,
   (no_content_length_short_circuit noContentLengthInput (by decide) rfl rfl
      rfl).2.2.1,
   (no_content_length_short_circuit noContentLengthInput (by decide) rfl rfl
      rfl).2.2.2,
   rfl⟩

/-- C1 (code bug): results are collected in as_completed order while main
zips them against the urls in submission order. With url a failing, url b
succeeding and b finishing first, the result list still has 2 entries but
filtering retries the succeeded url b and drops the failed url a. -/
theorem mispaired_filtering_drops_failed_url :
    (exOutcome "a").success = false ∧
    (exOutcome "b").success = true ∧
    List.Perm [1, 0] (List.range 2) ∧
    (asCompletedResults exOutcome [1, 0] ["a", "b"]).length = 2 ∧
    failedUrls ["a", "b"] (asCompletedResults exOutcome [1, 0] ["a", "b"]) =
      ["b"] := by
  decide

/-- C4 (code bug): the first run downloads the 5-byte file in full, but the
second run over the unchanged remote and the populated folder generates a
different unique filename (fresh timestamp and random number), finds nothing
at the new path, and downloads all 5 bytes again instead of short-circuiting. -/
theorem second_run_redownloads_full_file :
    (download_file c4run1).result =
      Except.ok { success := true, path := outputPath c4run1, errMsg := "" } ∧
    (fsAfter c4run1 (outputPath c4run1)).size = 5 ∧
    outputPath c4run2 ≠ outputPath c4run1 ∧
    (fsAfter c4run1 (outputPath c4run2)).present = false ∧
    (download_file c4run2).bytesWritten = 5 ∧
    dataRequest 0 ∈ (download_file c4run2).requests := by
  refine ⟨rfl, rfl, by decide, by decide, rfl, by decide⟩

/-- C2 counterexample: a valid URL with an invalid downloads folder makes
download_file raise ValueError (source line 98) instead of returning the
failure outcome shape. -/
theorem invalid_folder_raises :
    invalidFolderInput.scheme ≠ "" ∧ invalidFolderInput.netloc ≠ "" ∧
    (download_file invalidFolderInput).result =
      Except.error "Invalid downloads folder: dl" := by
  refine ⟨by decide, by decide, rfl⟩

/-- C3 counterexample: a pre-existing 10-byte file against a 5-byte remote
succeeds through the size short-circuit with final size 10, not equal to the
remote Content-Length. -/
theorem oversized_local_success_size_ne_remote :
    (download_file oversizedInput).result =
      Except.ok { success := true, path := outputPath oversizedInput,
                  errMsg := "" } ∧
    oversizedInput.remote.headContentLength = some 5 ∧
    (download_file oversizedInput).finalFile.size = 10 ∧
    (download_file oversizedInput).finalFile.size ≠
      oversizedInput.remote.headContentLength.getD 0 := by
  refine ⟨rfl, rfl, rfl, by decide⟩

/-- C6 counterexample: when the destination file already exists, the
timestamp probe (source line 112) is sent with no User-Agent header. -/
theorem timestamp_probe_lacks_user_agent :
    tsProbeRequest ∈ (download_file tsProbeInput).requests ∧
    tsProbeRequest.method = "HEAD" ∧
    tsProbeRequest.userAgent = none := by
  refine ⟨by decide, rfl, rfl⟩

/-- C7 counterexample: local size 3, remote size 10, but the remote
Last-Modified equals the local mtime, so the timestamp short-circuit succeeds
without any data request and the final size stays 3, not 10. -/
theorem timestamp_match_skips_resume :
    tsSkipResumeInput.remote.headContentLength = some 10 ∧
    (tsSkipResumeInput.fs (outputPath tsSkipResumeInput)).size = 3 ∧
    (download_file tsSkipResumeInput).result =
      Except.ok { success := true, path := outputPath tsSkipResumeInput,
                  errMsg := "" } ∧
    (download_file tsSkipResumeInput).requests = [tsProbeRequest] ∧
    (download_file tsSkipResumeInput).finalFile.size = 3 := by
  refine ⟨rfl, rfl, rfl, rfl, rfl⟩

/-- C5 counterexample: urls a (always fails) and b (always succeeds) with
retry budget 1. In round 0 the workers complete in the order b then a, the
zip misattributes the failure to b, round 1 retries b which succeeds, and the
run exits with status zero -- not BudgetExhausted, not a non-zero exit, and
the permanently failing url a is never reported. -/
theorem controller_misattribution_exits_zero :
    (exOutcome "a").success = false ∧
    (exOutcome "b").success = true ∧
    controllerRun c5dispatch 1 0 ["a", "b"] =
      { dispatches := 2, sleeps := 1, totalSleep := 0, crashed := false,
        exitNonZero := false, succeeded := true, finalUrls := [] } := by
  refine ⟨by decide, by decide, by decide⟩

/-- The verification tail never raises: it always returns an outcome. -/
theorem verify_isOk (inp : DFInput) (out : String) (reqs : List HttpRequest)
    (newf : LocalFile) (w rs : Nat) :
    (download_file_verify inp out reqs newf w rs).result.isOk = true := by
  unfold download_file_verify
  split_ifs with h
  · rfl
  · cases hlm : inp.remote.getLastModified <;> rfl

/-- The verification tail returns a legally shaped outcome. -/
theorem verify_shape_ok (inp : DFInput) (out : String) (reqs : List HttpRequest)
    (newf : LocalFile) (w rs : Nat) :
    outcomeShapeOk (download_file_verify inp out reqs newf w rs).result = true := by
  have hne :
      ("Downloaded file size does not match expected size for " ++ inp.url) ≠ "" :=
    append_ne_empty_left _ _ (by decide)
  unfold download_file_verify
  split_ifs with h
  · simp [outcomeShapeOk, bne_iff_ne, hne]
  · cases hlm : inp.remote.getLastModified <;> simp [outcomeShapeOk]

/-- Every outcome the transfer tail returns is legally shaped. -/
theorem rest_shape_ok (inp : DFInput) (out : String) (f : LocalFile)
    (reqs : List HttpRequest) :
    outcomeShapeOk (download_file_rest inp out f reqs).result = true := by
  simp only [download_file_rest]
  split_ifs
  all_goals first
    | exact verify_shape_ok inp out _ _ _ _
    | rfl

/-- An exception escaping the transfer tail can only be a network error. -/
theorem rest_exc (inp : DFInput) (out : String) (f : LocalFile)
    (reqs : List HttpRequest)
    (h : (download_file_rest inp out f reqs).result.isOk = false) :
    inp.remote.headExc = true ∨ inp.remote.getExc = true := by
  simp only [download_file_rest] at h
  split_ifs at h
  all_goals first
    | (rw [verify_isOk] at h; exact Bool.noConfusion h)
    | (left; assumption)
    | (right; assumption)
    | simp [Except.isOk, Except.toBool] at h

/-- Shape of the transfer tail: every returned outcome is legally shaped, and
an exception can only come from a network error. -/
theorem rest_shape (inp : DFInput) (out : String) (f : LocalFile)
    (reqs : List HttpRequest) :
    outcomeShapeOk (download_file_rest inp out f reqs).result = true ∧
    ((download_file_rest inp out f reqs).result.isOk = false →
      inp.remote.headExc = true ∨ inp.remote.getExc = true) :=
  ⟨rest_shape_ok inp out f reqs, rest_exc inp out f reqs⟩

/-- C2 (amended): download_file returns exactly one legally shaped Transfer
Outcome, except that an invalid downloads folder raises ValueError and a
network failure during the timestamp probe, the size probe or the data request
propagates as an exception; only those environments can make it raise. The
invalid-URL path, a bad status code and a size mismatch are all converted to
failure outcomes. -/
theorem transfer_unit_outcome_shape (inp : DFInput) :
    outcomeShapeOk (download_file inp).result = true ∧
    ((download_file inp).result.isOk = false → envException inp = true) := by
  have hne : ("Invalid URL: " ++ inp.url) ≠ "" :=
    append_ne_empty_left _ _ (by decide)
  have hrest := fun reqs =>
    rest_shape inp (outputPath inp) (inp.fs (outputPath inp)) reqs
  have henv : inp.remote.headExc = true ∨ inp.remote.getExc = true →
      envException inp = true := by
    intro h
    rcases h with h | h <;> simp [envException, h]
  unfold download_file
  by_cases h1 : inp.scheme = "" ∨ inp.netloc = ""
  · rw [if_pos h1]
    exact ⟨by simp [outcomeShapeOk, bne_iff_ne, hne],
      fun h => by simp [Except.isOk, Except.toBool] at h⟩
  · rw [if_neg h1]
    by_cases h2 : inp.downloadsIsDir = false
    · rw [if_pos h2]
      exact ⟨rfl, fun _ => by simp [envException, h2]⟩
    · rw [if_neg h2]
      cases hp : (inp.fs (outputPath inp)).present with
      | false =>
        simp only [hp, Bool.false_eq_true, if_false]
        exact ⟨(hrest []).1, fun h => henv ((hrest []).2 h)⟩
      | true =>
        simp only [hp, if_true]
        by_cases hhe : inp.remote.headExc = true
        · rw [if_pos hhe]
          exact ⟨rfl, fun _ => henv (Or.inl hhe)⟩
        · rw [if_neg hhe]
          cases hlm : inp.remote.headLastModified with
          | none =>
            exact ⟨(hrest [tsProbeRequest]).1,
              fun h => henv ((hrest [tsProbeRequest]).2 h)⟩
          | some ts =>
            dsimp only
            by_cases hts : ts = (inp.fs (outputPath inp)).mtime
            · rw [if_pos hts]
              exact ⟨by simp [outcomeShapeOk],
                fun h => by simp [Except.isOk, Except.toBool] at h⟩
            · rw [if_neg hts]
              exact ⟨(hrest [tsProbeRequest]).1,
                fun h => henv ((hrest [tsProbeRequest]).2 h)⟩

theorem transfer_unit_outcome_shape_witness :
    outcomeShapeOk (download_file invalidFolderInput).result = true ∧
    envException invalidFolderInput = true :=
  ⟨(transfer_unit_outcome_shape invalidFolderInput).1,
   (transfer_unit_outcome_shape invalidFolderInput).2 rfl⟩

/-- A successful outcome of the verification tail certifies the final size
equals the expected remote size. -/
theorem verify_success_size (inp : DFInput) (out : String)
    (reqs : List HttpRequest) (newf : LocalFile) (w rs : Nat) (o : Outcome)
    (ho : (download_file_verify inp out reqs newf w rs).result = Except.ok o)
    (hs : o.success = true) :
    (download_file_verify inp out reqs newf w rs).finalFile.size = rs := by
  unfold download_file_verify at ho ⊢
  split_ifs at ho ⊢ with h
  · dsimp only at ho
    cases ho
    simp at hs
  · cases hlm : inp.remote.getLastModified with
    | none => show newf.size = rs; omega
    | some ts => show newf.size = rs; omega

/-- A successful outcome of the transfer tail leaves the file at least as
large as the remote size, and exactly that size when a transfer was needed
(local size below remote size). -/
theorem rest_success_size (inp : DFInput) (out : String) (f : LocalFile)
    (reqs : List HttpRequest) (o : Outcome)
    (ho : (download_file_rest inp out f reqs).result = Except.ok o)
    (hs : o.success = true) :
    (download_file_rest inp out f reqs).finalFile.size ≥
      inp.remote.headContentLength.getD 0 ∧
    (localSize f < inp.remote.headContentLength.getD 0 →
      (download_file_rest inp out f reqs).finalFile.size =
        inp.remote.headContentLength.getD 0) := by
  simp only [download_file_rest] at ho ⊢
  split_ifs at ho ⊢ with h1 h2 h3 h4 h5
  · dsimp only at ho ⊢
    have hls : localSize f ≤ f.size := by
      unfold localSize
      split_ifs <;> omega
    exact ⟨by omega, fun hlt => by omega⟩
  · simp only [List.append_assoc, List.singleton_append, List.cons_append,
      List.nil_append] at ho ⊢
    have hv := verify_success_size inp out _ _ _ _ o ho hs
    rw [hv]
    exact ⟨Nat.le_refl _, fun _ => rfl⟩
  · simp only [List.append_assoc, List.singleton_append, List.cons_append,
      List.nil_append] at ho ⊢
    have hv := verify_success_size inp out _ _ _ _ o ho hs
    rw [hv]
    exact ⟨Nat.le_refl _, fun _ => rfl⟩
  · dsimp only at ho
    cases ho
    simp at hs

/-- C3 (amended): a successful outcome that does not come from the timestamp
short-circuit guarantees final size at least the remote Content-Length, with
exact equality whenever a transfer was actually performed (local size below
remote size). The timestamp-equality path and the oversized-local path return
success without size equality, so the specified equality invariant must weaken
to this. -/
theorem success_final_size_ge_remote (inp : DFInput) (o : Outcome)
    (hok : (download_file inp).result = Except.ok o)
    (hs : o.success = true)
    (hts : tsSkip (inp.fs (outputPath inp)) inp.remote = false) :
    (download_file inp).finalFile.size ≥ inp.remote.headContentLength.getD 0 ∧
    (localSize (inp.fs (outputPath inp)) < inp.remote.headContentLength.getD 0 →
      (download_file inp).finalFile.size =
        inp.remote.headContentLength.getD 0) := by
  unfold download_file at hok ⊢
  by_cases h1 : inp.scheme = "" ∨ inp.netloc = ""
  · rw [if_pos h1] at hok
    dsimp only at hok
    cases hok
    simp at hs
  · rw [if_neg h1] at hok ⊢
    by_cases h2 : inp.downloadsIsDir = false
    · rw [if_pos h2] at hok
      exact absurd hok (by simp)
    · rw [if_neg h2] at hok ⊢
      cases hp : (inp.fs (outputPath inp)).present with
      | false =>
        simp only [hp, Bool.false_eq_true, if_false] at hok ⊢
        exact rest_success_size inp _ _ _ o hok hs
      | true =>
        simp only [hp, if_true] at hok ⊢
        by_cases hhe : inp.remote.headExc = true
        · rw [if_pos hhe] at hok
          exact absurd hok (by simp)
        · rw [if_neg hhe] at hok ⊢
          cases hlm : inp.remote.headLastModified with
          | none =>
            simp only [hlm] at hok ⊢
            exact rest_success_size inp _ _ _ o hok hs
          | some ts =>
            simp only [hlm] at hok ⊢
            by_cases hteq : ts = (inp.fs (outputPath inp)).mtime
            · exfalso
              rw [tsSkip, hp, hlm] at hts
              simp [hteq] at hts
            · rw [if_neg hteq] at hok ⊢
              exact rest_success_size inp _ _ _ o hok hs

theorem success_final_size_ge_remote_witness :
    (download_file freshTransferInput).finalFile.size ≥
      freshTransferInput.remote.headContentLength.getD 0 ∧
    (localSize (freshTransferInput.fs (outputPath freshTransferInput)) <
        freshTransferInput.remote.headContentLength.getD 0 →
      (download_file freshTransferInput).finalFile.size =
        freshTransferInput.remote.headContentLength.getD 0) :=
  success_final_size_ge_remote freshTransferInput
    { success := true, path := outputPath freshTransferInput, errMsg := "" }
    rfl rfl rfl

/-- The verification tail issues no further requests. -/
theorem verify_requests (inp : DFInput) (out : String) (reqs : List HttpRequest)
    (newf : LocalFile) (w rs : Nat) :
    (download_file_verify inp out reqs newf w rs).requests = reqs := by
  unfold download_file_verify
  split_ifs with h
  · rfl
  · cases hlm : inp.remote.getLastModified <;> rfl

/-- Every request the transfer tail adds beyond those already issued carries
the fixed User-Agent header. -/
theorem rest_requests_ua (inp : DFInput) (out : String) (f : LocalFile)
    (reqs0 : List HttpRequest) (r : HttpRequest)
    (hr : r ∈ (download_file_rest inp out f reqs0).requests) :
    r ∈ reqs0 ∨ r.userAgent = some userAgent := by
  simp only [download_file_rest] at hr
  split_ifs at hr
  all_goals
    simp only [verify_requests, List.append_assoc, List.singleton_append,
      List.cons_append, List.nil_append, List.mem_append, List.mem_cons,
      List.not_mem_nil, or_false] at hr
  all_goals first
    | (rcases hr with hr | rfl | rfl
       · exact Or.inl hr
       · exact Or.inr rfl
       · exact Or.inr rfl)
    | (rcases hr with hr | rfl
       · exact Or.inl hr
       · exact Or.inr rfl)

/-- C6 (amended): every size probe and every data request carries the fixed
browser-like User-Agent header, but the timestamp probe -- issued exactly when
the destination file already exists -- is sent with no User-Agent at all. -/
theorem requests_user_agent_except_ts_probe (inp : DFInput) (r : HttpRequest)
    (hr : r ∈ (download_file inp).requests) :
    r.userAgent = some userAgent ∨
      (r = tsProbeRequest ∧ (inp.fs (outputPath inp)).present = true) := by
  unfold download_file at hr
  by_cases h1 : inp.scheme = "" ∨ inp.netloc = ""
  · rw [if_pos h1] at hr
    simp at hr
  · rw [if_neg h1] at hr
    by_cases h2 : inp.downloadsIsDir = false
    · rw [if_pos h2] at hr
      simp at hr
    · rw [if_neg h2] at hr
      cases hp : (inp.fs (outputPath inp)).present with
      | false =>
        simp only [hp, Bool.false_eq_true, if_false] at hr
        rcases rest_requests_ua inp _ _ _ r hr with h | h
        · simp at h
        · exact Or.inl h
      | true =>
        simp only [hp, if_true] at hr
        by_cases hhe : inp.remote.headExc = true
        · rw [if_pos hhe] at hr
          dsimp only at hr
          simp only [List.mem_cons, List.not_mem_nil, or_false] at hr
          exact Or.inr ⟨hr, rfl⟩
        · rw [if_neg hhe] at hr
          cases hlm : inp.remote.headLastModified with
          | none =>
            rw [hlm] at hr
            dsimp only at hr
            rcases rest_requests_ua inp _ _ _ r hr with h | h
            · simp only [List.mem_cons, List.not_mem_nil, or_false] at h
              exact Or.inr ⟨h, rfl⟩
            · exact Or.inl h
          | some ts =>
            rw [hlm] at hr
            dsimp only at hr
            by_cases hts : ts = (inp.fs (outputPath inp)).mtime
            · rw [if_pos hts] at hr
              dsimp only at hr
              simp only [List.mem_cons, List.not_mem_nil, or_false] at hr
              exact Or.inr ⟨hr, rfl⟩
            · rw [if_neg hts] at hr
              rcases rest_requests_ua inp _ _ _ r hr with h | h
              · simp only [List.mem_cons, List.not_mem_nil, or_false] at h
                exact Or.inr ⟨h, rfl⟩
              · exact Or.inl h

theorem requests_user_agent_except_ts_probe_witness :
    sizeProbeRequest.userAgent = some userAgent ∨
      (sizeProbeRequest = tsProbeRequest ∧
        (tsProbeInput.fs (outputPath tsProbeInput)).present = true) :=
  requests_user_agent_except_ts_probe tsProbeInput sizeProbeRequest (by decide)

/-- The verification tail never changes the size of the written file. -/
theorem verify_final_size (inp : DFInput) (out : String)
    (reqs : List HttpRequest) (newf : LocalFile) (w rs : Nat) :
    (download_file_verify inp out reqs newf w rs).finalFile.size = newf.size := by
  unfold download_file_verify
  split_ifs with h
  · rfl
  · cases hlm : inp.remote.getLastModified <;> rfl

/-- The verification tail reports exactly the bytes the transfer wrote. -/
theorem verify_bytes (inp : DFInput) (out : String) (reqs : List HttpRequest)
    (newf : LocalFile) (w rs : Nat) :
    (download_file_verify inp out reqs newf w rs).bytesWritten = w := by
  unfold download_file_verify
  split_ifs with h
  · rfl
  · cases hlm : inp.remote.getLastModified <;> rfl

/-- When the local size is below the remote size and no network error occurs,
the transfer tail issues the range data request starting at the local size,
and a 206 answer appends the body to the file. -/
theorem rest_transfer (inp : DFInput) (out : String) (f : LocalFile)
    (reqs0 : List HttpRequest)
    (hhe : inp.remote.headExc = false) (hge : inp.remote.getExc = false)
    (hlt : localSize f < inp.remote.headContentLength.getD 0) :
    dataRequest (localSize f) ∈ (download_file_rest inp out f reqs0).requests ∧
    (inp.remote.getStatus = 206 →
      (download_file_rest inp out f reqs0).finalFile.size =
        localSize f + inp.remote.getBodyLen ∧
      (download_file_rest inp out f reqs0).bytesWritten =
        inp.remote.getBodyLen) := by
  simp only [download_file_rest]
  rw [hhe]
  simp only [Bool.false_eq_true, if_false]
  rw [if_neg (by omega : ¬ localSize f ≥ inp.remote.headContentLength.getD 0)]
  rw [hge]
  simp only [Bool.false_eq_true, if_false]
  by_cases h206 : inp.remote.getStatus = 206
  · rw [if_pos h206]
    refine ⟨by rw [verify_requests]; simp, fun _ => ?_⟩
    exact ⟨by simp [verify_final_size], by simp [verify_bytes]⟩
  · rw [if_neg h206]
    by_cases h200 : inp.remote.getStatus = 200
    · rw [if_pos h200]
      exact ⟨by rw [verify_requests]; simp, fun hc => absurd hc h206⟩
    · rw [if_neg h200]
      exact ⟨by simp, fun hc => absurd hc h206⟩

/-- Under a valid URL and folder, an existing destination, no network error
and no timestamp short-circuit, download_file runs the transfer tail with the
timestamp probe already issued. -/
theorem download_file_eq_rest (inp : DFInput)
    (h1 : ¬ (inp.scheme = "" ∨ inp.netloc = ""))
    (h2 : inp.downloadsIsDir = true)
    (hp : (inp.fs (outputPath inp)).present = true)
    (hhe : inp.remote.headExc = false)
    (hts : tsSkip (inp.fs (outputPath inp)) inp.remote = false) :
    download_file inp =
      download_file_rest inp (outputPath inp) (inp.fs (outputPath inp))
        [tsProbeRequest] := by
  unfold download_file
  rw [if_neg h1, if_neg (by simp [h2])]
  simp only [hp, if_true]
  rw [hhe]
  simp only [Bool.false_eq_true, if_false]
  cases hlm : inp.remote.headLastModified with
  | none => rfl
  | some ts =>
    dsimp only
    have hne : ¬ ts = (inp.fs (outputPath inp)).mtime := by
      intro he
      rw [tsSkip, hp, hlm] at hts
      simp [he] at hts
    rw [if_neg hne]

/-- C7 (amended): with the destination pre-existing at size L, remote size R,
0 < L < R, no network failure, and the timestamp short-circuit not firing
(without which no data request happens at all), download_file issues the GET
with header Range: bytes=L-; a 206 answer appends the body so the file grows
to L plus the body length; and any successful outcome has final size exactly
R. -/
theorem resume_range_request_and_final_size (inp : DFInput) (R : Nat)
    (h1 : ¬ (inp.scheme = "" ∨ inp.netloc = ""))
    (h2 : inp.downloadsIsDir = true)
    (hhe : inp.remote.headExc = false)
    (hge : inp.remote.getExc = false)
    (hcl : inp.remote.headContentLength = some R)
    (hp : (inp.fs (outputPath inp)).present = true)
    (hL0 : 0 < (inp.fs (outputPath inp)).size)
    (hLR : (inp.fs (outputPath inp)).size < R)
    (hts : tsSkip (inp.fs (outputPath inp)) inp.remote = false) :
    dataRequest (inp.fs (outputPath inp)).size ∈ (download_file inp).requests ∧
    (inp.remote.getStatus = 206 →
      (download_file inp).finalFile.size =
        (inp.fs (outputPath inp)).size + inp.remote.getBodyLen ∧
      (download_file inp).bytesWritten = inp.remote.getBodyLen) ∧
    (∀ o, (download_file inp).result = Except.ok o → o.success = true →
      (download_file inp).finalFile.size = R) := by
  have hls : localSize (inp.fs (outputPath inp)) =
      (inp.fs (outputPath inp)).size := by
    simp [localSize, hp]
  have hlt : localSize (inp.fs (outputPath inp)) <
      inp.remote.headContentLength.getD 0 := by
    rw [hls, hcl]
    exact hLR
  rw [download_file_eq_rest inp h1 h2 hp hhe hts]
  have htr := rest_transfer inp (outputPath inp) (inp.fs (outputPath inp))
    [tsProbeRequest] hhe hge hlt
  refine ⟨?_, ?_, ?_⟩
  · rw [← hls]
    exact htr.1
  · intro h206
    rw [← hls]
    exact htr.2 h206
  · intro o ho hs
    have := (rest_success_size inp (outputPath inp) _ _ o ho hs).2 hlt
    rw [this, hcl]
    rfl

theorem resume_range_request_and_final_size_witness :
    dataRequest (resumeInput.fs (outputPath resumeInput)).size ∈
      (download_file resumeInput).requests ∧
    (resumeInput.remote.getStatus = 206 →
      (download_file resumeInput).finalFile.size =
        (resumeInput.fs (outputPath resumeInput)).size +
          resumeInput.remote.getBodyLen ∧
      (download_file resumeInput).bytesWritten =
        resumeInput.remote.getBodyLen) ∧
    (∀ o, (download_file resumeInput).result = Except.ok o →
      o.success = true → (download_file resumeInput).finalFile.size = 10) :=
  resume_range_request_and_final_size resumeInput 10 (by decide) rfl rfl rfl
    rfl rfl (by decide) (by decide) (by decide)

/-- Collecting in submission order yields exactly the per-url outcomes. -/
theorem asCompleted_range (f : String → Outcome) (urls : List String) :
    asCompletedResults f (List.range urls.length) urls = urls.map f := by
  induction urls with
  | nil => rfl
  | cons a t ih =>
    simp only [asCompletedResults] at ih
    simp only [asCompletedResults, List.length_cons, List.range_succ_eq_map,
      List.map_cons, List.map_map, List.getD_cons_zero, Function.comp_def,
      List.getD_cons_succ]
    rw [ih]

/-- The dispatcher in submission order on a non-empty batch with a positive
worker limit returns one outcome per url, positionally. -/
theorem idDispatch_ok (f : String → Outcome) (mw : Int) (hmw : 1 ≤ mw)
    (r : Nat) (urls : List String) (hne : urls ≠ []) :
    idDispatch f mw r urls = Except.ok (urls.map f) := by
  have hpos : (0 : Int) < (urls.length : Int) := by
    exact_mod_cast List.length_pos.mpr hne
  simp only [idDispatch, download_files_parallel, clampWorkers]
  rw [if_neg (by omega : ¬ mw ≤ 0)]
  by_cases hgt : mw > (urls.length : Int)
  · rw [if_pos hgt, if_neg (by omega : ¬ ((urls.length : Int) ≤ 0))]
    simp [Except.map, asCompleted_range]
  · rw [if_neg hgt, if_neg (by omega : ¬ (mw ≤ 0))]
    simp [Except.map, asCompleted_range]

/-- The zip filtering of main, applied to positionally paired results, keeps
exactly the urls whose own outcome failed. -/
theorem failedUrls_map (f : String → Outcome) (urls : List String) :
    failedUrls urls (urls.map f) =
      urls.filter (fun u => !(f u).success) := by
  induction urls with
  | nil => rfl
  | cons a t ih =>
    simp only [failedUrls] at ih
    simp only [failedUrls, List.map_cons, List.zip_cons_cons, List.filter_cons]
    cases hfa : (f a).success with
    | true =>
      simp only [hfa, Bool.not_true, Bool.false_eq_true, if_false]
      exact ih
    | false =>
      simp only [hfa, Bool.not_false, if_true, List.map_cons]
      rw [ih]

/-- A batch in which every url always fails burns the whole remaining budget:
one dispatch per remaining attempt, a sleep after each non-final attempt, and
the for-else exit with status one reporting the same urls. -/
theorem allfail_go (f : String → Outcome) (mw : Int) (hmw : 1 ≤ mw)
    (rc rd : Nat) :
    ∀ fuel attempt urls, urls ≠ [] →
      (∀ u ∈ urls, (f u).success = false) →
      attempt + fuel + 1 = rc + 1 →
      controllerGo (idDispatch f mw) rc rd attempt (fuel + 1) urls =
        { dispatches := fuel + 1, sleeps := fuel, totalSleep := fuel * rd,
          crashed := false, exitNonZero := true, succeeded := false,
          finalUrls := urls } := by
  intro fuel
  induction fuel with
  | zero =>
    intro attempt urls hne hall hsum
    rw [controllerGo]
    rw [idDispatch_ok f mw hmw attempt urls hne]
    dsimp only
    have hfail : failedUrls urls (urls.map f) = urls := by
      rw [failedUrls_map]
      apply List.filter_eq_self.mpr
      intro u hu
      simp [hall u hu]
    rw [hfail]
    have hempty : urls.isEmpty = false := by
      cases urls with
      | nil => exact absurd rfl hne
      | cons a t => rfl
    simp only [hempty, Bool.false_eq_true, if_false]
    rw [controllerGo]
    have hnlt : ¬ attempt < rc := by omega
    simp [hnlt]
  | succ m ih =>
    intro attempt urls hne hall hsum
    rw [controllerGo]
    rw [idDispatch_ok f mw hmw attempt urls hne]
    dsimp only
    have hfail : failedUrls urls (urls.map f) = urls := by
      rw [failedUrls_map]
      apply List.filter_eq_self.mpr
      intro u hu
      simp [hall u hu]
    rw [hfail]
    have hempty : urls.isEmpty = false := by
      cases urls with
      | nil => exact absurd rfl hne
      | cons a t => rfl
    simp only [hempty, Bool.false_eq_true, if_false]
    rw [ih (attempt + 1) urls hne hall (by omega)]
    have hlt : attempt < rc := by omega
    simp [hlt, Nat.succ_mul, RunResult.mk.injEq]

/-- C5 (amended): when each round collects its results in submission order
(so the zip pairing of main is correct) and per-url outcomes are fixed, a
non-empty batch with a non-empty always-failing subset makes the controller
invoke the dispatcher exactly retry_count plus one times, sleep retry_delay
after every attempt but the last (retry_count sleeps, retry_count times
retry_delay seconds in total), and exit non-zero reporting exactly the
failing urls; if no url fails, it succeeds after one dispatch with a zero
exit. Under other completion orders the zip mispairing can instead produce a
zero exit despite a permanently failing url. -/
theorem controller_identity_order_behavior (f : String → Outcome) (mw : Int)
    (urls : List String) (rc rd : Nat)
    (hne : urls ≠ []) (hmw : 1 ≤ mw) :
    (urls.filter (fun u => !(f u).success) ≠ [] →
      controllerRun (idDispatch f mw) rc rd urls =
        { dispatches := rc + 1, sleeps := rc, totalSleep := rc * rd,
          crashed := false, exitNonZero := true, succeeded := false,
          finalUrls := urls.filter (fun u => !(f u).success) }) ∧
    (urls.filter (fun u => !(f u).success) = [] →
      controllerRun (idDispatch f mw) rc rd urls =
        { dispatches := 1, sleeps := 0, totalSleep := 0, crashed := false,
          exitNonZero := false, succeeded := true, finalUrls := [] }) := by
  unfold controllerRun
  rw [controllerGo]
  rw [idDispatch_ok f mw hmw 0 urls hne]
  dsimp only
  rw [failedUrls_map]
  constructor
  · intro hfail
    have hempty : (urls.filter (fun u => !(f u).success)).isEmpty = false := by
      cases hF : urls.filter (fun u => !(f u).success) with
      | nil => exact absurd hF hfail
      | cons a t => rfl
    simp only [hempty, Bool.false_eq_true, if_false]
    have hallf : ∀ u ∈ urls.filter (fun u => !(f u).success),
        (f u).success = false := by
      intro u hu
      have := List.mem_filter.mp hu
      simpa using this.2
    cases rc with
    | zero =>
      rw [controllerGo]
      simp
    | succ m =>
      have hrec := allfail_go f mw hmw (m + 1) rd m 1
        (urls.filter (fun u => !(f u).success)) hfail hallf (by omega)
      simp only [Nat.zero_add]
      rw [hrec]
      simp [Nat.succ_mul, RunResult.mk.injEq]
  · intro hfail
    rw [hfail]
    simp

theorem controller_identity_order_behavior_witness :
    controllerRun (idDispatch exOutcome 1) 2 5 ["a"] =
      { dispatches := 3, sleeps := 2, totalSleep := 10, crashed := false,
        exitNonZero := true, succeeded := false, finalUrls := ["a"] } :=
  (controller_identity_order_behavior exOutcome 1 ["a"] 2 5 (by decide)
    (by decide)).1 (by decide)
